import Mathlib

set_option maxRecDepth 8000
set_option maxHeartbeats 1000000

namespace FireBot

/-- Employee record, as the class `Employee` in main.py (immutable directory data). -/
structure Employee where
  employee_id : String
  first_name : String
  last_name : String
  display_name : String
  telephone_number : String
  email_address : String
  deriving DecidableEq, Repr

/-- Help-desk ticket draft, as the class `Ticket` in main.py; every field defaults to "". -/
structure Ticket where
  name : String
  id_num : String
  contact_method : String
  phone_number : String
  email : String
  work_mode : String
  work_address : String
  urgency : String
  issue_description : String
  deriving DecidableEq, Repr

/-- The value `Ticket()` built with all default arguments. -/
def emptyTicket : Ticket := ⟨"", "", "", "", "", "", "", "", ""⟩

/-- One recognition choice, as `RecognitionChoice(label=…, phrases=…, tone=…)`. -/
structure RecognitionChoice where
  label : String
  phrases : List String
  tone : String
  deriving DecidableEq, Repr

/-- Retry bookkeeping, as the class `RetryObject` in main.py.  The source defines
`__int__` instead of `__init__`, so a fresh `RetryObject()` carries NO attributes at
all; each field is therefore an `Option`, `none` meaning the attribute was never
assigned, and reading a `none` field models the `AttributeError` Python raises. -/
structure RetryObject where
  context : Option String
  choices : Option (List RecognitionChoice)
  mode : Option String
  counter : Option Nat
  deriving DecidableEq, Repr

/-- The freshly constructed `RetryObject()` (no attributes set, see above). -/
def RetryObject.fresh : RetryObject := ⟨none, none, none, none⟩

/-- The method `RetryObject.reset`, which assigns all four attributes. -/
def RetryObject.resetAll : RetryObject := ⟨some "", some [], some "", some 0⟩

/-- The whole mutable module-level state of main.py: the read-only directory
`employee_dict` plus the globals `current_employee`, `new_phone_number`,
`current_ticket` and `retry_object`.  The source keeps exactly one copy of these
for the entire process, shared by every phone call. -/
structure GlobalState where
  employee_dict : List (String × Employee)
  current_employee : Option Employee
  new_phone_number : Option String
  current_ticket : Ticket
  retry_object : RetryObject
  deriving DecidableEq, Repr

/-- Module state right after startup with a given directory: `current_employee = None`,
`new_phone_number = None`, `current_ticket = Ticket()`, `retry_object = RetryObject()`. -/
def initState (dir : List (String × Employee)) : GlobalState :=
  ⟨dir, none, none, emptyTicket, RetryObject.fresh⟩

/-- String constant from main.py. -/
def RECIPIENT_ADDRESS : String := "www.tech.footprints@fire.lacounty.gov"

/-- String constant from main.py. -/
def MAIN_MENU : String :=
  "Hello! Welcome to the Los Angeles Fire Department Help Desk Phone Line. ..."

/-- String constant from main.py. -/
def CUSTOMER_QUERY_TIMEOUT : String :=
  "I’m sorry I didn’t receive a response, please try again."

/-- String constant `INVALID_AUDIO` from main.py. -/
def INVALID_AUDIO_MSG : String :=
  "I’m sorry, I didn’t understand your response, please try again."

/-- String constant from main.py. -/
def GOODBYE : String := "Goodbye for now!"

/-- String constant from main.py. -/
def FATAL_ERROR_MESSAGE : String :=
  "I apologize, but there was a systematic error in the call. Please call again."

/-- String constant from main.py. -/
def CONFIRM_CHOICE_LABEL : String := "Confirm"

/-- String constant from main.py. -/
def TICKET_CHOICE_LABEL : String := "Ticket"

/-- String constant from main.py. -/
def MCU_CHOICE_LABEL : String := "MCU"

/-- Apology played once the retry counter exceeds 2 (main.py lines 997-999). -/
def ESCALATION_MESSAGE : String :=
  "I apologize. It looks like we are having an issue understanding each other. Let me connect you to a live agent. Goodbye for now!"

/-- The function `get_menu_choices` of main.py. -/
def get_menu_choices : List RecognitionChoice :=
  [⟨TICKET_CHOICE_LABEL, ["File ticket"], "one"⟩,
   ⟨MCU_CHOICE_LABEL,
    ["Speak to radio", "Speak to a person", "Speak to radio controlled unit",
     "Transfer to person"], "zero"⟩]

/-- The function `get_confirm_choices` of main.py. -/
def get_confirm_choices : List RecognitionChoice :=
  [⟨CONFIRM_CHOICE_LABEL, ["Yes", "First", "One"], "one"⟩,
   ⟨"No", ["No", "Second", "Two"], "two"⟩,
   ⟨MCU_CHOICE_LABEL,
    ["Speak to radio", "Speak to a person", "Speak to radio controlled unit",
     "Transfer to person"], "zero"⟩]

/-- The function `get_urgency_choices` of main.py. -/
def get_urgency_choices : List RecognitionChoice :=
  [⟨"Low", ["Low", "First", "One"], "one"⟩,
   ⟨"Medium", ["Medium", "Second", "Two"], "two"⟩,
   ⟨"High", ["High", "Third", "Three"], "three"⟩]

/-- The function `get_workmode_choices` of main.py. -/
def get_workmode_choices : List RecognitionChoice :=
  [⟨"Office", ["Office", "In office", "On site", "On location", "First", "One"], "one"⟩,
   ⟨"Telework", ["Telework", "Work from home", "Remote", "Second", "Two"], "two"⟩]

/-- The function `get_contact_method_choices` of main.py. -/
def get_contact_method_choices : List RecognitionChoice :=
  [⟨"Phone", ["Phone", "Telephone", "Call", "By phone", "By telephone", "First", "One"], "one"⟩,
   ⟨"Email", ["Email", "By email", "Two"], "two"⟩]

/-- The function `get_additional_request_choices` of main.py. -/
def get_additional_request_choices : List RecognitionChoice :=
  [⟨"Yes", ["Yes", "Additional request", "Another ticket", "Additional ticket", "First", "One"], "one"⟩,
   ⟨"No", ["No", "End call", "Finish", "Hang up", "Second", "Two"], "two"⟩]

/-- Python `str.lower()` restricted to the ASCII casing the inputs use. -/
def pyLower (s : String) : String := String.mk (s.data.map Char.toLower)

/-- Python `str.upper()` restricted to the ASCII casing the inputs use. -/
def pyUpper (s : String) : String := String.mk (s.data.map Char.toUpper)

/-- Python `s.replace(str(c), "")`: delete every occurrence of the one-character
pattern `c` from `s`. -/
def pyRemoveChar (s : String) (c : Char) : String :=
  String.mk (s.data.filter (fun a => a ≠ c))

/-- The `__str__` method of `Ticket` (main.py lines 122-132). -/
def ticketToString (t : Ticket) : String :=
  "Employee #: " ++ pyUpper t.id_num ++ "\n" ++
  "Name: " ++ t.name ++ "\n" ++
  "Best method of contact: " ++ pyLower t.contact_method ++ "\n" ++
  "Phone Number: " ++ t.phone_number ++ "\n" ++
  "Email: " ++ pyLower t.email ++ "\n" ++
  "Work location: " ++ pyLower t.work_mode ++ "\n" ++
  "Work Address: " ++ pyLower t.work_address ++ "\n" ++
  "Urgency tier: " ++ pyLower t.urgency ++ "\n" ++
  "Description of Issue: " ++ t.issue_description

/-- The function `get_employee_by_id` of main.py: `employee_dict.get(id, "Employee not
found.")` followed by the callers checking `isinstance(…, Employee)`; a miss is `none`. -/
def get_employee_by_id (dict : List (String × Employee)) (employee_id : String) :
    Option Employee :=
  (dict.find? (fun p => p.1 = employee_id)).map (fun p => p.2)

/-- Outbound side effects the handler performs through the Azure clients: the three
`start_recognizing_media` shapes, `play_media` (via `handle_play`), `hang_up`, and the
email sent by `send_email`. -/
inductive Directive where
  | startChoices (text : String) (choices : List RecognitionChoice) (context : String)
  | startSpeech (text : String) (context : String)
  | startSpeechOrDtmf (text : String) (context : String) (maxTones : Nat)
  | play (text : String) (context : Option String)
  | hangUp
  | sendEmail (recipient : String) (subject : String) (plainText : String)
  deriving DecidableEq, Repr

/-- HTTP outcome of one POST to `/api/callbacks`: the `Response(status=200)` on the
normal path, or a `pyError` when the Python code raises an uncaught exception
(Flask then answers 500).  Side effects performed before the raise stand. -/
inductive Outcome where
  | http200
  | pyError (message : String)
  deriving DecidableEq, Repr

/-- One parsed CloudEvent from the webhook body, split by `event.type` and, for
`RecognizeCompleted`, by `event.data['recognitionType']`.  Each carries the
`callConnectionId` and the `operationContext` the source reads. -/
inductive CallbackEvent where
  | CallConnected (callConnectionId : String)
  | RecognizeCompletedChoices (callConnectionId : String) (label : String)
      (recognizedPhrase : Option String) (operationContext : String)
  | RecognizeCompletedSpeech (callConnectionId : String) (speech : String)
      (operationContext : String)
  | RecognizeCompletedDtmf (callConnectionId : String) (tones : List String)
      (operationContext : String)
  | RecognizeCompletedOther (callConnectionId : String) (operationContext : String)
  | RecognizeFailed (callConnectionId : String) (operationContext : String)
      (subCode : Nat)
  | PlayCompleted (callConnectionId : String)
  | PlayFailed (callConnectionId : String)
  deriving DecidableEq, Repr

/-- The function `get_media_recognize_choice_options` of main.py: records the retry
context/mode/choices on the global `retry_object`, then starts choice recognition. -/
def get_media_recognize_choice_options (gs : GlobalState) (text_to_play : String)
    (choices : List RecognitionChoice) (context : String) : GlobalState × Directive :=
  ({gs with retry_object :=
      {gs.retry_object with
        context := some context
        mode := some "choices"
        choices := some choices}},
   Directive.startChoices text_to_play choices context)

/-- The function `get_media_recognize_speech_input` of main.py: records the retry
context and mode (but not choices), then starts speech recognition. -/
def get_media_recognize_speech_input (gs : GlobalState) (text_to_play : String)
    (context : String) : GlobalState × Directive :=
  ({gs with retry_object :=
      {gs.retry_object with
        context := some context
        mode := some "speech"}},
   Directive.startSpeech text_to_play context)

/-- The function `get_media_recognize_speech_or_dtmf_input` of main.py: records the
retry context and mode, computes `MAX_TONES` (6 for `provide_eid`, else 10), then
starts combined recognition. -/
def get_media_recognize_speech_or_dtmf_input (gs : GlobalState) (text_to_play : String)
    (context : String) : GlobalState × Directive :=
  ({gs with retry_object :=
      {gs.retry_object with
        context := some context
        mode := some "speech_or_dtmf"}},
   Directive.startSpeechOrDtmf text_to_play context
     (if context = "provide_eid" then 6 else 10))

/-- The function `send_email` of main.py called with an explicit ticket: resets the
retry object, then submits one plain-text message to the single fixed recipient.
Every exception of the send itself is caught and logged inside `send_email`, so this
call never raises into the handler. -/
def send_email (gs : GlobalState) (ticket : Ticket) : GlobalState × Directive :=
  ({gs with retry_object := RetryObject.resetAll},
   Directive.sendEmail RECIPIENT_ADDRESS "Help desk ticket" (ticketToString ticket))

/-- The function `reset_ticket` of main.py: `current_ticket = Ticket()`. -/
def reset_ticket (gs : GlobalState) : GlobalState :=
  {gs with current_ticket := emptyTicket}

/-- The normalization applied to a spoken employee id in the `provide_eid` speech
branch (main.py lines 848-850): `text.lower()`, strip spaces, strip periods.  No
word-to-digit conversion and no prefix is applied. -/
def normalize_speech_eid (text : String) : String :=
  pyRemoveChar (pyRemoveChar (pyLower text) ' ') '.'

/-- `w2n.word_to_num` on a single DTMF tone word; the library raises `ValueError`
on a word that is not a number (for example "pound" or "asterisk"), modeled as
`none`. -/
def word_to_num : String → Option Nat
  | "zero" => some 0
  | "one" => some 1
  | "two" => some 2
  | "three" => some 3
  | "four" => some 4
  | "five" => some 5
  | "six" => some 6
  | "seven" => some 7
  | "eight" => some 8
  | "nine" => some 9
  | _ => none

/-- The loop `for tone in tones: num_string += str(w2n.word_to_num(tone))`
(main.py lines 952-953); `none` models the `ValueError` raised at the first
non-number tone, which aborts the handler. -/
def tonesToNumString : List String → Option String
  | [] => some ""
  | t :: ts =>
      match word_to_num t with
      | none => none
      | some n => (tonesToNumString ts).map (fun rest => toString n ++ rest)

/-- The lookup key built from a DTMF capture in the `provide_eid` branch
(main.py lines 955-958): concatenated digits, spaces and periods stripped, then
prefixed with the literal character "e". -/
def dtmf_eid_key (tones : List String) : Option String :=
  (tonesToNumString tones).map
    (fun num_string => "e" ++ pyRemoveChar (pyRemoveChar num_string ' ') '.')

/-- Prompt of the `main_menu`/Ticket branch (main.py line 615). -/
def TICKET_CONFIRM_TEXT : String :=
  "Got it. You\x27d like to file a ticket. Is that correct?"

/-- Prompt of the `main_menu`/MCU branch (main.py lines 623-624). -/
def MCU_CONFIRM_TEXT : String :=
  "Got it. You\x27d like to be transferred to a radio controlled unit. Is that correct? "

/-- Prompt of the `transfer_to_mcu`/Confirm branch (main.py lines 634-638). -/
def MCU_IN_PRODUCTION_TEXT : String :=
  "This feature is currently in production still. Let\x27s start again. How can I help you today?. Please say \x27file ticket\x27, if you would like to file a service ticket, or say \x27radio\x27 to be connected to a live agent. Alternatively, you can press \x27one\x27 to file a ticket, or press \x27zero\x27 to speak to an agent "

/-- Restart prompt used by several cancel branches (main.py lines 647-650 and alike). -/
def RESTART_MENU_TEXT : String :=
  "Hmm. Okay. Let\x27s start again. How can I help you today?. Please say \x27file ticket\x27, if you would like to file a service ticket, or say \x27radio\x27 to be connected to a live agent. Alternatively, you can press \x27one\x27 to file a ticket, or press \x27zero\x27 to speak to an agent "

/-- Prompt of the `ticket`/Confirm branch (main.py line 659). -/
def PROVIDE_EID_TEXT : String := "Great. Can you provide your employee ID number?"

/-- Prompt of the `mcu` cancel branch (main.py line 682). -/
def MCU_RESTART_SHORT_TEXT : String :=
  "Hmm. Okay. Let\x27s start again. How can I help you today?"

/-- Prompt of the `confirm_name`/Confirm branch when a phone is on file (main.py 696-698). -/
def PHONE_ON_FILE_TEXT : String :=
  "Okay. I have a phone number here for you pulled from the employee directory. Is this still the best way to contact you? "

/-- Prompt of the `confirm_name`/Confirm branch with no phone on file (main.py 705-706). -/
def NO_PHONE_ON_FILE_TEXT : String :=
  "Okay. The employee directory does not have a phone number listed for you. Can you say your phone number, or enter it on the dial pad? "

/-- Prompt of the `confirm_name` cancel branch (main.py lines 714-715). -/
def WRONG_EMPLOYEE_TEXT : String :=
  "Ah. It looks like you may have provided another employee\x27s ID number. Let\x27s try again. Can you please say your employee ID number?"

/-- Prompt of the `confirm_phone_number`/Confirm branch (main.py lines 726-727). -/
def EMAIL_ON_FILE_TEXT_A : String :=
  "Okay. I also have your email address on file from the directory. Is this still the best email to reach you at? "

/-- Prompt of the `confirm_phone_number` cancel branch (main.py line 736). -/
def BEST_PHONE_TEXT : String := "Okay. What is the best phone number for you?"

/-- Prompt of the `confirm_new_phone_number`/Confirm branch (main.py lines 748-749). -/
def EMAIL_ON_FILE_TEXT_B : String :=
  "Okay. I also have your email address on file from the directory. Is this still the best email to reach you at?"

/-- Prompt of the `confirm_new_phone_number`/Confirm branch with no email on file
(main.py lines 758-759; the source misspells "THe"). -/
def NO_EMAIL_ON_FILE_TEXT : String :=
  "Okay. THe employee directory does not have an email address listed for you. Can you please provide your email address now? "

/-- Prompt of the `confirm_new_phone_number` cancel branch (main.py line 767). -/
def RETRY_PHONE_TEXT : String :=
  "Hmm. Okay. Let\x27s try that again. What is the best phone number for you?"

/-- Work-mode prompt (main.py lines 777-779, repeated at 886-888). -/
def WORKMODE_TEXT : String :=
  "Okay. Now, where are you working from? Say \x27office\x27 if you are working from an on site location, or say \x27telework\x27 if you are working from a remote location, or press \x27one\x27 for in-office, or \x27two\x27 for telework. "

/-- Prompt of the `confirm_email_on_file` cancel branch (main.py line 787). -/
def BEST_EMAIL_TEXT : String := "Okay. What is the best email address for you?"

/-- Contact-method prompt (main.py lines 797-800; the source has a double space). -/
def CONTACT_METHOD_TEXT : String :=
  "Okay. Now, What is the best way to contact you? Say \x27email\x27 if you would like to be contacted via email,  or say \x27phone\x27 if you would like to be contacted via phone call. Or, press \x27one\x27 for email, or press \x27two\x27 for phone. "

/-- Work-address prompt (main.py line 810). -/
def WORK_ADDRESS_TEXT : String :=
  "Okay. Almost done. Now, what is the physical address where the issue is occurring?"

/-- Issue-description prompt (main.py lines 820-821; the source misspells "desribe"). -/
def DESCRIBE_ISSUE_TEXT : String :=
  "Great. Now, can you clearly and succinctly desribe the issue that you are dealing with today? "

/-- Re-prompt after a failed employee lookup (main.py lines 864-865 and 972-973). -/
def EID_NOT_FOUND_TEXT : String :=
  "I couldn\x27t find an employee under that I.D. number. Let\x27s try one more time. Can you please say your employee ID number? "

/-- Confirmation text after the issue is captured (main.py lines 911-916). -/
def ISSUE_LOGGED_TEXT : String :=
  "I understand. Sorry to hear that your dealing with that today. Ive logged this issue successfully. Someone should be reaching out to you shortly, via your provided best contact method. We look forward to getting this issue resolved for you. Now, is there anything else I can assist you with? Say \x27yes\x27, or feel free to hang up "

/-- Urgency prompt (main.py lines 897-900). -/
def URGENCY_TEXT : String :=
  "Okay. Lastly, what is the urgency of this issue? Please say \x27low\x27, \x27medium\x27, or \x27high\x27, or press \x27one\x27 for low, press \x27two\x27 for medium, or press \x27three\x27 for high. Please note, when filing a high urgency ticket, the issue will be escalated in the ticket queue. Please choose accordingly. "

/-- Re-prompt for a DTMF employee id that is not 6 tones long (main.py lines 932-933). -/
def EID_LENGTH_TEXT : String :=
  "Employee ID numbers should have 6 digits. Let\x27s try again. Can you please say or enter your employee ID number? "

/-- Re-prompt after a pound/asterisk tone (main.py lines 942-944). -/
def EID_INVALID_CHAR_TEXT : String :=
  "You entered an invalid character. Employee ID numbers should consist of six numerical digits. Let\x27s try again. Can you please say or enter your employee ID number? "

/-- The `recognitionType == "choices"` part of the `RecognizeCompleted` arm of
`callback_events_handler` (main.py lines 602-839).  The independent `if` tests on
`event.data['operationContext']` compare the unchanged event field, so exactly one
of them can fire; a context matching none of them falls through with no directive.
The `confirm_additional_request`/"Yes" branch calls `send_email` and then calls
`get_media_recognize_choice_options` without its required `choices` argument, which
raises `TypeError` before that function body runs. -/
def recognize_choices_branch (gs : GlobalState) (label : String) (ctx : String) :
    GlobalState × List Directive × Outcome :=
  if ctx = "main_menu" then
    if label = TICKET_CHOICE_LABEL then
      let p := get_media_recognize_choice_options gs TICKET_CONFIRM_TEXT
        get_confirm_choices "ticket"
      (p.1, [p.2], Outcome.http200)
    else if label = MCU_CHOICE_LABEL then
      let p := get_media_recognize_choice_options gs MCU_CONFIRM_TEXT
        get_confirm_choices "transfer_to_mcu"
      (p.1, [p.2], Outcome.http200)
    else (gs, [], Outcome.http200)
  else if ctx = "transfer_to_mcu" then
    if label = CONFIRM_CHOICE_LABEL then
      let p := get_media_recognize_choice_options gs MCU_IN_PRODUCTION_TEXT
        get_menu_choices "main_menu"
      (p.1, [p.2], Outcome.http200)
    else
      let p := get_media_recognize_choice_options gs RESTART_MENU_TEXT
        get_menu_choices "main_menu"
      (p.1, [p.2], Outcome.http200)
  else if ctx = "ticket" then
    if label = CONFIRM_CHOICE_LABEL then
      let p := get_media_recognize_speech_or_dtmf_input gs PROVIDE_EID_TEXT "provide_eid"
      (p.1, [p.2], Outcome.http200)
    else
      let p := get_media_recognize_choice_options gs RESTART_MENU_TEXT
        get_menu_choices "main_menu"
      (p.1, [p.2], Outcome.http200)
  else if ctx = "mcu" then
    if label = CONFIRM_CHOICE_LABEL then
      (gs, [], Outcome.http200)
    else
      let p := get_media_recognize_choice_options gs MCU_RESTART_SHORT_TEXT
        get_menu_choices "main_menu"
      (p.1, [p.2], Outcome.http200)
  else if ctx = "confirm_name" then
    if label = CONFIRM_CHOICE_LABEL then
      match gs.current_employee with
      | none => (gs, [], Outcome.pyError "AttributeError: NoneType employee_id")
      | some emp =>
        let gs1 := {gs with current_ticket :=
          {gs.current_ticket with id_num := emp.employee_id, name := emp.display_name}}
        if emp.telephone_number ≠ "" then
          let p := get_media_recognize_choice_options gs1 PHONE_ON_FILE_TEXT
            get_confirm_choices "confirm_phone_number"
          (p.1, [p.2], Outcome.http200)
        else
          let p := get_media_recognize_speech_or_dtmf_input gs1 NO_PHONE_ON_FILE_TEXT
            "provide_new_phone_number"
          (p.1, [p.2], Outcome.http200)
    else
      let p := get_media_recognize_speech_input gs WRONG_EMPLOYEE_TEXT "provide_eid"
      (p.1, [p.2], Outcome.http200)
  else if ctx = "confirm_phone_number" then
    if label = CONFIRM_CHOICE_LABEL then
      match gs.current_employee with
      | none => (gs, [], Outcome.pyError "AttributeError: NoneType telephone_number")
      | some emp =>
        let gs1 := {gs with current_ticket :=
          {gs.current_ticket with phone_number := emp.telephone_number}}
        let p := get_media_recognize_choice_options gs1 EMAIL_ON_FILE_TEXT_A
          get_confirm_choices "confirm_email_on_file"
        (p.1, [p.2], Outcome.http200)
    else
      let p := get_media_recognize_speech_or_dtmf_input gs BEST_PHONE_TEXT
        "provide_new_phone_number"
      (p.1, [p.2], Outcome.http200)
  else if ctx = "confirm_new_phone_number" then
    if label = CONFIRM_CHOICE_LABEL then
      match gs.new_phone_number with
      | none => (gs, [], Outcome.pyError "TypeError: cannot concatenate NoneType")
      | some num =>
        let gs1 := {gs with current_ticket :=
          {gs.current_ticket with phone_number := num}}
        match gs1.current_employee with
        | none => (gs1, [], Outcome.pyError "AttributeError: NoneType email_address")
        | some emp =>
          if emp.email_address ≠ "" then
            let p := get_media_recognize_choice_options gs1 EMAIL_ON_FILE_TEXT_B
              get_confirm_choices "confirm_email_on_file"
            (p.1, [p.2], Outcome.http200)
          else
            let p := get_media_recognize_speech_input gs1 NO_EMAIL_ON_FILE_TEXT
              "provide_new_email_address"
            (p.1, [p.2], Outcome.http200)
    else
      let p := get_media_recognize_speech_or_dtmf_input gs RETRY_PHONE_TEXT
        "provide_new_phone_number"
      (p.1, [p.2], Outcome.http200)
  else if ctx = "confirm_email_on_file" then
    if label = CONFIRM_CHOICE_LABEL then
      match gs.current_employee with
      | none => (gs, [], Outcome.pyError "AttributeError: NoneType email_address")
      | some emp =>
        let gs1 := {gs with current_ticket :=
          {gs.current_ticket with email := emp.email_address}}
        let p := get_media_recognize_choice_options gs1 WORKMODE_TEXT
          get_workmode_choices "confirm_work_location"
        (p.1, [p.2], Outcome.http200)
    else
      let p := get_media_recognize_speech_input gs BEST_EMAIL_TEXT
        "provide_new_email_address"
      (p.1, [p.2], Outcome.http200)
  else if ctx = "confirm_work_location" then
    let gs1 := {gs with current_ticket := {gs.current_ticket with work_mode := label}}
    let p := get_media_recognize_choice_options gs1 CONTACT_METHOD_TEXT
      get_contact_method_choices "confirm_contact_method"
    (p.1, [p.2], Outcome.http200)
  else if ctx = "confirm_contact_method" then
    let gs1 := {gs with current_ticket := {gs.current_ticket with contact_method := label}}
    let p := get_media_recognize_speech_input gs1 WORK_ADDRESS_TEXT "provide_work_address"
    (p.1, [p.2], Outcome.http200)
  else if ctx = "confirm_urgency" then
    let gs1 := {gs with current_ticket := {gs.current_ticket with urgency := label}}
    let p := get_media_recognize_speech_input gs1 DESCRIBE_ISSUE_TEXT "capture_issue"
    (p.1, [p.2], Outcome.http200)
  else if ctx = "confirm_additional_request" then
    if label = "Yes" then
      let p := send_email gs gs.current_ticket
      (p.1, [p.2],
       Outcome.pyError "TypeError: missing required positional argument choices")
    else
      (gs, [Directive.play GOODBYE (some "end_call_log_ticket")], Outcome.http200)
  else (gs, [], Outcome.http200)

/-- The `recognitionType == "speech"` part of the `RecognizeCompleted` arm
(main.py lines 842-923).  In `capture_issue` the recognition request is issued
first and `send_email` runs after it. -/
def recognize_speech_branch (gs : GlobalState) (text : String) (ctx : String) :
    GlobalState × List Directive × Outcome :=
  if ctx = "provide_eid" then
    let final_id_num := normalize_speech_eid text
    match get_employee_by_id gs.employee_dict final_id_num with
    | some emp =>
      let gs1 := {gs with current_employee := some emp}
      let p := get_media_recognize_choice_options gs1
        ("Great. Give me a moment while I look up your information... Is your name " ++
          emp.first_name ++ "?")
        get_confirm_choices "confirm_name"
      (p.1, [p.2], Outcome.http200)
    | none =>
      let p := get_media_recognize_speech_or_dtmf_input gs EID_NOT_FOUND_TEXT
        "provide_eid"
      (p.1, [p.2], Outcome.http200)
  else if ctx = "provide_new_phone_number" then
    let num := pyRemoveChar text ' '
    let gs1 := {gs with new_phone_number := some num}
    let p := get_media_recognize_choice_options gs1
      ("You said " ++ num ++ ". Is this correct?") get_confirm_choices
      "confirm_phone_number"
    (p.1, [p.2], Outcome.http200)
  else if ctx = "provide_new_email_address" then
    let gs1 := {gs with current_ticket := {gs.current_ticket with email := text}}
    let p := get_media_recognize_choice_options gs1 WORKMODE_TEXT
      get_workmode_choices "confirm_work_location"
    (p.1, [p.2], Outcome.http200)
  else if ctx = "provide_work_address" then
    let gs1 := {gs with current_ticket := {gs.current_ticket with work_address := text}}
    let p := get_media_recognize_choice_options gs1 URGENCY_TEXT
      get_urgency_choices "confirm_urgency"
    (p.1, [p.2], Outcome.http200)
  else if ctx = "capture_issue" then
    let gs1 := {gs with current_ticket :=
      {gs.current_ticket with issue_description := text}}
    let p := get_media_recognize_choice_options gs1 ISSUE_LOGGED_TEXT
      get_additional_request_choices "confirm_additional_request"
    let q := send_email p.1 p.1.current_ticket
    (q.1, [p.2, q.2], Outcome.http200)
  else (gs, [], Outcome.http200)

/-- The `recognitionType == "dtmf"` part of the `RecognizeCompleted` arm
(main.py lines 925-988).  The length check and the pound/asterisk scan are not
followed by a `return`, so the handler continues into the digit conversion and
(for `provide_eid`) the directory lookup; the conversion raises `ValueError` at
the first tone that is not a number word (the source spells the asterisk tone
"asterick", so a real "asterisk" tone skips the scan and crashes the conversion). -/
def recognize_dtmf_branch (gs : GlobalState) (tones : List String) (ctx : String) :
    GlobalState × List Directive × Outcome :=
  let step1 : GlobalState × List Directive :=
    if ctx = "provide_eid" ∧ tones.length ≠ 6 then
      let p := get_media_recognize_speech_or_dtmf_input gs EID_LENGTH_TEXT "provide_eid"
      (p.1, [p.2])
    else (gs, [])
  let step2 : GlobalState × List Directive :=
    if tones.any (fun tone => tone = "pound" ∨ tone = "asterick") then
      let p := get_media_recognize_speech_or_dtmf_input step1.1 EID_INVALID_CHAR_TEXT
        "provide_eid"
      (p.1, step1.2 ++ [p.2])
    else step1
  match tonesToNumString tones with
  | none => (step2.1, step2.2, Outcome.pyError "ValueError: word_to_num")
  | some num_string =>
    if ctx = "provide_eid" then
      let final_id_num := "e" ++ pyRemoveChar (pyRemoveChar num_string ' ') '.'
      match get_employee_by_id step2.1.employee_dict final_id_num with
      | some emp =>
        let gs1 := {step2.1 with current_employee := some emp}
        let p := get_media_recognize_choice_options gs1
          ("Great. Give me a moment while I look up your information... Is your name " ++
            emp.first_name ++ "?")
          get_confirm_choices "confirm_name"
        (p.1, step2.2 ++ [p.2], Outcome.http200)
      | none =>
        let p := get_media_recognize_speech_or_dtmf_input step2.1 EID_NOT_FOUND_TEXT
          "provide_eid"
        (p.1, step2.2 ++ [p.2], Outcome.http200)
    else if ctx = "provide_new_phone_number" then
      let gs1 := {step2.1 with new_phone_number := some num_string}
      let p := get_media_recognize_choice_options gs1
        ("You said " ++ num_string ++ ". Is this correct?") get_confirm_choices
        "confirm_new_phone_number"
      (p.1, step2.2 ++ [p.2], Outcome.http200)
    else (step2.1, step2.2, Outcome.http200)

/-- The escalation apology played once `retry_object.counter` exceeds 2 is NOT
followed by a `return` (main.py lines 994-1035): the handler falls through into the
re-prompt logic below it.  Reading `counter` or `mode` before they were ever
assigned raises `AttributeError` (see `RetryObject`). -/
def recognize_failed_branch (gs : GlobalState) (ctx : String) (subCode : Nat) :
    GlobalState × List Directive × Outcome :=
  match gs.retry_object.counter with
  | none => (gs, [], Outcome.pyError "AttributeError: counter")
  | some c =>
    let gs1 := {gs with retry_object := {gs.retry_object with counter := some (c + 1)}}
    let ds1 : List Directive :=
      if c + 1 > 2 then
        [Directive.play ESCALATION_MESSAGE (some "retry_count_reached")]
      else []
    if ctx ≠ "" then
      let textToPlay := if subCode = 8510 then CUSTOMER_QUERY_TIMEOUT else INVALID_AUDIO_MSG
      match gs1.retry_object.mode with
      | none => (gs1, ds1, Outcome.pyError "AttributeError: mode")
      | some m =>
        if m = "choices" then
          match gs1.retry_object.choices, gs1.retry_object.context with
          | some cs, some rctx =>
            let p := get_media_recognize_choice_options gs1 textToPlay cs rctx
            (p.1, ds1 ++ [p.2], Outcome.http200)
          | _, _ => (gs1, ds1, Outcome.pyError "AttributeError: choices")
        else if m = "speech" then
          match gs1.retry_object.context with
          | some rctx =>
            let p := get_media_recognize_speech_input gs1 textToPlay rctx
            (p.1, ds1 ++ [p.2], Outcome.http200)
          | none => (gs1, ds1, Outcome.pyError "AttributeError: context")
        else
          (gs1, ds1 ++ [Directive.play FATAL_ERROR_MESSAGE (some "fatal_error")],
           Outcome.http200)
    else (gs1, ds1, Outcome.http200)

/-- Processing of ONE CloudEvent by `callback_events_handler` (main.py lines
581-1045).  `CallConnected` resets the ticket and starts the main menu; every
`RecognizeCompleted` first executes `retry_object.counter = 0` (line 600) and then
dispatches on the recognition type; `PlayFailed` plays the fatal message and both
play events hang the call up. -/
def process_event (gs : GlobalState) (e : CallbackEvent) :
    GlobalState × List Directive × Outcome :=
  match e with
  | CallbackEvent.CallConnected _ =>
    let p := get_media_recognize_choice_options (reset_ticket gs) MAIN_MENU
      get_menu_choices "main_menu"
    (p.1, [p.2], Outcome.http200)
  | CallbackEvent.RecognizeCompletedChoices _ label _ ctx =>
    recognize_choices_branch
      {gs with retry_object := {gs.retry_object with counter := some 0}} label ctx
  | CallbackEvent.RecognizeCompletedSpeech _ text ctx =>
    recognize_speech_branch
      {gs with retry_object := {gs.retry_object with counter := some 0}} text ctx
  | CallbackEvent.RecognizeCompletedDtmf _ tones ctx =>
    recognize_dtmf_branch
      {gs with retry_object := {gs.retry_object with counter := some 0}} tones ctx
  | CallbackEvent.RecognizeCompletedOther _ _ =>
    ({gs with retry_object := {gs.retry_object with counter := some 0}},
     [Directive.play FATAL_ERROR_MESSAGE none], Outcome.http200)
  | CallbackEvent.RecognizeFailed _ ctx subCode => recognize_failed_branch gs ctx subCode
  | CallbackEvent.PlayCompleted _ => (gs, [Directive.hangUp], Outcome.http200)
  | CallbackEvent.PlayFailed _ =>
    (gs, [Directive.play FATAL_ERROR_MESSAGE (some "fatal_error"), Directive.hangUp],
     Outcome.http200)

/-- The POST endpoint `/api/callbacks` (main.py lines 570-1045).  The
`return Response(status=200)` sits INSIDE the `for event_dict in request.json`
loop, so the handler processes only the first event of the posted array; an empty
array makes the view return `None`, which Flask rejects. -/
def callback_events_handler (gs : GlobalState) (events : List CallbackEvent) :
    GlobalState × List Directive × Outcome :=
  match events with
  | [] => (gs, [], Outcome.pyError "TypeError: view returned None")
  | e :: _ => process_event gs e

/-- Test whether an event is one of the `RecognizeCompleted` shapes. -/
def is_recognize_completed : CallbackEvent → Bool
  | CallbackEvent.RecognizeCompletedChoices _ _ _ _ => true
  | CallbackEvent.RecognizeCompletedSpeech _ _ _ => true
  | CallbackEvent.RecognizeCompletedDtmf _ _ _ => true
  | CallbackEvent.RecognizeCompletedOther _ _ => true
  | _ => false

/-- Sample directory employee used in concrete scenarios. -/
def empAlex : Employee :=
  ⟨"e672834", "Alex", "Marrero", "Alex Marrero", "5551234567", "alex@lafd.example"⟩

/-- Sample directory employee whose id has only five digits after the "e". -/
def empPat : Employee :=
  ⟨"e12345", "Pat", "Lee", "Pat Lee", "5550000000", "pat@lafd.example"⟩

/-- Sample directory employee used for the cross-call scenario. -/
def empBobbie : Employee :=
  ⟨"e111111", "Bobbie", "Chen", "Bobbie Chen", "5559999999", "bobbie@lafd.example"⟩

/-- Module state of a call that connected and chose "Ticket" at the main menu:
`CallConnected` followed by a `main_menu` choice result. -/
def ticketPromptState : GlobalState :=
  (process_event
    ((process_event (initState []) (CallbackEvent.CallConnected "callA")).1)
    (CallbackEvent.RecognizeCompletedChoices "callA" "Ticket" none "main_menu")).1

/-- One `RecognizeFailed` webhook event in the `ticket` context (silence timeout,
sub-code 8510). -/
def failTicketEvent : CallbackEvent := CallbackEvent.RecognizeFailed "callA" "ticket" 8510

/-- Module state after the first of three consecutive failures. -/
def afterFail1 : GlobalState := (process_event ticketPromptState failTicketEvent).1

/-- Module state after the second of three consecutive failures. -/
def afterFail2 : GlobalState := (process_event afterFail1 failTicketEvent).1

/-- Module state of a call "A" that has already bound an employee and partially
filled the (global) ticket, and is waiting on `confirm_phone_number`. -/
def sessionA : GlobalState :=
  { initState [("e672834", empAlex)] with
    current_employee := some empAlex
    current_ticket := {emptyTicket with name := "Alex Marrero", id_num := "e672834"}
    retry_object := ⟨some "confirm_phone_number", some get_confirm_choices,
                     some "choices", some 0⟩ }

/-- Module state after call "B" answered the employee-id prompt while call "A" was
still mid-dialog: the speech result for B rebinds the single global
`current_employee`. -/
def afterCallBBinds : GlobalState :=
  (process_event (initState [("e111111", empBobbie)])
    (CallbackEvent.RecognizeCompletedSpeech "callB" "e111111" "provide_eid")).1

/-- Module state of a call at `capture_issue` with every earlier ticket field filled. -/
def captureState : GlobalState :=
  { initState [] with
    current_employee := some empAlex
    current_ticket := ⟨"Alex Marrero", "e672834", "Phone", "5551234567",
                       "alex@lafd.example", "Office", "123 Main St", "Low", ""⟩
    retry_object := ⟨some "capture_issue", none, some "speech", some 0⟩ }

/-- Result of the `capture_issue` speech event on `captureState`. -/
def captureStep : GlobalState × List Directive × Outcome :=
  process_event captureState
    (CallbackEvent.RecognizeCompletedSpeech "callA" "printer is broken" "capture_issue")

/-- The "Yes" answer at `confirm_additional_request`, sent after `captureStep`. -/
def yesStep : GlobalState × List Directive × Outcome :=
  process_event captureStep.1
    (CallbackEvent.RecognizeCompletedChoices "callA" "Yes" none "confirm_additional_request")

/-- Join a list of lines with newline separators (for stating the one-field-per-line
shape of the outbound ticket email). -/
def joinLines : List String → String
  | [] => ""
  | [l] => l
  | l :: ls => l ++ "\n" ++ joinLines ls

/-- Auxiliary: the character list underlying an appended string. -/
theorem data_of_append (a b : String) : (a ++ b).data = a.data ++ b.data := by
  cases a
  cases b
  rfl

/-- Auxiliary: strings with the same character list are equal. -/
theorem string_eq_of_data_eq (a b : String) (h : a.data = b.data) : a = b := by
  cases a
  cases b
  exact congrArg String.mk h

/-- Auxiliary: the choices part of `RecognizeCompleted` never changes a zeroed retry
counter: every directive helper it calls preserves `counter` and `send_email` writes 0. -/
theorem choices_branch_counter (gs : GlobalState) (label ctx : String)
    (h : gs.retry_object.counter = some 0) :
    ((recognize_choices_branch gs label ctx).1).retry_object.counter = some 0 := by
  unfold recognize_choices_branch
  by_cases h1 : ctx = "main_menu"
  · rw [if_pos h1]
    repeat' split
    all_goals try dsimp only
    all_goals repeat' split
    all_goals first | exact h | rfl
  rw [if_neg h1]
  by_cases h2 : ctx = "transfer_to_mcu"
  · rw [if_pos h2]
    repeat' split
    all_goals first | exact h | rfl
  rw [if_neg h2]
  by_cases h3 : ctx = "ticket"
  · rw [if_pos h3]
    repeat' split
    all_goals first | exact h | rfl
  rw [if_neg h3]
  by_cases h4 : ctx = "mcu"
  · rw [if_pos h4]
    repeat' split
    all_goals first | exact h | rfl
  rw [if_neg h4]
  by_cases h5 : ctx = "confirm_name"
  · rw [if_pos h5]
    repeat' split
    all_goals try dsimp only
    all_goals repeat' split
    all_goals first | exact h | rfl
  rw [if_neg h5]
  by_cases h6 : ctx = "confirm_phone_number"
  · rw [if_pos h6]
    repeat' split
    all_goals try dsimp only
    all_goals repeat' split
    all_goals first | exact h | rfl
  rw [if_neg h6]
  by_cases h7 : ctx = "confirm_new_phone_number"
  · rw [if_pos h7]
    repeat' split
    all_goals try dsimp only
    all_goals repeat' split
    all_goals first | exact h | rfl
  rw [if_neg h7]
  by_cases h8 : ctx = "confirm_email_on_file"
  · rw [if_pos h8]
    repeat' split
    all_goals try dsimp only
    all_goals repeat' split
    all_goals first | exact h | rfl
  rw [if_neg h8]
  by_cases h9 : ctx = "confirm_work_location"
  · rw [if_pos h9]
    exact h
  rw [if_neg h9]
  by_cases h10 : ctx = "confirm_contact_method"
  · rw [if_pos h10]
    exact h
  rw [if_neg h10]
  by_cases h11 : ctx = "confirm_urgency"
  · rw [if_pos h11]
    exact h
  rw [if_neg h11]
  by_cases h12 : ctx = "confirm_additional_request"
  · rw [if_pos h12]
    repeat' split
    all_goals first | exact h | rfl
  rw [if_neg h12]
  exact h

/-- Auxiliary: the speech part of `RecognizeCompleted` never changes a zeroed retry
counter. -/
theorem speech_branch_counter (gs : GlobalState) (text ctx : String)
    (h : gs.retry_object.counter = some 0) :
    ((recognize_speech_branch gs text ctx).1).retry_object.counter = some 0 := by
  unfold recognize_speech_branch
  by_cases h1 : ctx = "provide_eid"
  · rw [if_pos h1]
    repeat' split
    all_goals try dsimp only
    all_goals repeat' split
    all_goals first | exact h | rfl
  rw [if_neg h1]
  by_cases h2 : ctx = "provide_new_phone_number"
  · rw [if_pos h2]
    exact h
  rw [if_neg h2]
  by_cases h3 : ctx = "provide_new_email_address"
  · rw [if_pos h3]
    exact h
  rw [if_neg h3]
  by_cases h4 : ctx = "provide_work_address"
  · rw [if_pos h4]
    exact h
  rw [if_neg h4]
  by_cases h5 : ctx = "capture_issue"
  · rw [if_pos h5]
    rfl
  rw [if_neg h5]
  exact h

/-- Auxiliary: the DTMF part of `RecognizeCompleted` never changes a zeroed retry
counter. -/
theorem dtmf_branch_counter (gs : GlobalState) (tones : List String) (ctx : String)
    (h : gs.retry_object.counter = some 0) :
    ((recognize_dtmf_branch gs tones ctx).1).retry_object.counter = some 0 := by
  unfold recognize_dtmf_branch
  repeat' split
  all_goals try dsimp only
  all_goals repeat' split
  all_goals first | exact h | rfl

/-- C7: for every session state and every successful recognition event
(`RecognizeCompleted` of any recognition type), the handler resets the retry
counter to 0 before the transition is processed: the result does not depend on
the incoming counter value, and the state it leaves behind carries counter 0. -/
theorem C7_recognize_completed_resets_counter (gs : GlobalState) (e : CallbackEvent)
    (h : is_recognize_completed e = true) :
    process_event gs e =
      process_event
        {gs with retry_object := {gs.retry_object with counter := some 0}} e ∧
    ((process_event gs e).1).retry_object.counter = some 0 := by
  cases e with
  | CallConnected cid => simp [is_recognize_completed] at h
  | RecognizeCompletedChoices cid label ph ctx =>
      exact ⟨rfl, choices_branch_counter _ label ctx rfl⟩
  | RecognizeCompletedSpeech cid text ctx =>
      exact ⟨rfl, speech_branch_counter _ text ctx rfl⟩
  | RecognizeCompletedDtmf cid tones ctx =>
      exact ⟨rfl, dtmf_branch_counter _ tones ctx rfl⟩
  | RecognizeCompletedOther cid ctx => exact ⟨rfl, rfl⟩
  | RecognizeFailed cid ctx sc => simp [is_recognize_completed] at h
  | PlayCompleted cid => simp [is_recognize_completed] at h
  | PlayFailed cid => simp [is_recognize_completed] at h

/-- Witness for C7 at a concrete state and event. -/
theorem C7_recognize_completed_resets_counter_witness :
    is_recognize_completed
      (CallbackEvent.RecognizeCompletedSpeech "callA" "hello" "main_menu") = true ∧
    (process_event (initState [])
        (CallbackEvent.RecognizeCompletedSpeech "callA" "hello" "main_menu") =
      process_event
        {initState [] with retry_object :=
          {(initState []).retry_object with counter := some 0}}
        (CallbackEvent.RecognizeCompletedSpeech "callA" "hello" "main_menu") ∧
     ((process_event (initState [])
        (CallbackEvent.RecognizeCompletedSpeech "callA" "hello" "main_menu")).1).retry_object.counter = some 0) :=
  ⟨rfl, C7_recognize_completed_resets_counter (initState []) _ rfl⟩

/-- C9: a POST whose body holds two or more events is answered from the first event
alone; the `return Response(status=200)` executes inside the first loop iteration,
so the remaining events are never examined. -/
theorem C9_only_first_event_processed (gs : GlobalState) (e : CallbackEvent)
    (rest : List CallbackEvent) :
    callback_events_handler gs (e :: rest) = callback_events_handler gs [e] ∧
    callback_events_handler gs (e :: rest) = process_event gs e :=
  ⟨rfl, rfl⟩

/-- C8: every dispatched ticket notification is one plain-text message sent to the
single fixed recipient address, whose body lists the nine fields one per line in the
fixed order id, name, contact method, phone, email, work mode, work address,
urgency, description. -/
theorem C8_ticket_email_fixed_recipient_and_field_order (gs : GlobalState) (t : Ticket) :
    (send_email gs t).2 =
      Directive.sendEmail RECIPIENT_ADDRESS "Help desk ticket"
        (joinLines
          ["Employee #: " ++ pyUpper t.id_num,
           "Name: " ++ t.name,
           "Best method of contact: " ++ pyLower t.contact_method,
           "Phone Number: " ++ t.phone_number,
           "Email: " ++ pyLower t.email,
           "Work location: " ++ pyLower t.work_mode,
           "Work Address: " ++ pyLower t.work_address,
           "Urgency tier: " ++ pyLower t.urgency,
           "Description of Issue: " ++ t.issue_description]) := by
  show Directive.sendEmail RECIPIENT_ADDRESS "Help desk ticket" (ticketToString t) = _
  refine congrArg (Directive.sendEmail RECIPIENT_ADDRESS "Help desk ticket") ?_
  apply string_eq_of_data_eq
  simp [ticketToString, joinLines, data_of_append, List.append_assoc]

/-- C1 (code behavior at the failing input): in the `ticket` state, the first two
consecutive `RecognizeFailed` events re-prompt, but the third produces the
escalation apology AND a fourth re-prompt recognition request, because the source
does not return after the escalation `handle_play`. -/
theorem C1_third_failure_still_reprompts :
    (process_event ticketPromptState failTicketEvent).2.1 =
      [Directive.startChoices CUSTOMER_QUERY_TIMEOUT get_confirm_choices "ticket"] ∧
    (process_event afterFail1 failTicketEvent).2.1 =
      [Directive.startChoices CUSTOMER_QUERY_TIMEOUT get_confirm_choices "ticket"] ∧
    (process_event afterFail2 failTicketEvent).2.1 =
      [Directive.play ESCALATION_MESSAGE (some "retry_count_reached"),
       Directive.startChoices CUSTOMER_QUERY_TIMEOUT get_confirm_choices "ticket"] := by
  decide

/-- C2 (code behavior at the failing input): there is only one global session, so a
`CallConnected` event for call "B" erases the ticket draft call "A" was building,
and after call "B" binds its employee, call "A"'s `confirm_name` confirmation writes
B's employee id into the ticket. -/
theorem C2_single_global_session_leaks_across_calls :
    sessionA.current_ticket ≠ emptyTicket ∧
    (process_event sessionA (CallbackEvent.CallConnected "callB")).1.current_ticket =
      emptyTicket ∧
    (process_event afterCallBBinds
      (CallbackEvent.RecognizeCompletedChoices "callA" "Confirm" none
        "confirm_name")).1.current_ticket.id_num = "e111111" := by
  decide

/-- C3 (code behavior at the failing input): a five-tone DTMF capture in
`provide_eid` issues the rejection re-prompt but then still performs the directory
lookup and binds the found employee; and a capture holding a real "asterisk" tone
issues no re-prompt at all and raises `ValueError` (the source only checks the
misspelled "asterick"). -/
theorem C3_invalid_dtmf_capture_looked_up_and_bound :
    (process_event (initState [("e12345", empPat)])
      (CallbackEvent.RecognizeCompletedDtmf "callA"
        ["one", "two", "three", "four", "five"] "provide_eid")).2.1 =
      [Directive.startSpeechOrDtmf EID_LENGTH_TEXT "provide_eid" 6,
       Directive.startChoices
         "Great. Give me a moment while I look up your information... Is your name Pat?"
         get_confirm_choices "confirm_name"] ∧
    (process_event (initState [("e12345", empPat)])
      (CallbackEvent.RecognizeCompletedDtmf "callA"
        ["one", "two", "three", "four", "five"] "provide_eid")).1.current_employee =
      some empPat ∧
    (process_event (initState [])
      (CallbackEvent.RecognizeCompletedDtmf "callA"
        ["one", "two", "three", "four", "five", "asterisk"] "provide_eid")).2 =
      ([], Outcome.pyError "ValueError: word_to_num") := by
  decide

/-- C4 (code behavior at the failing input): the `capture_issue` transition
dispatches the completed ticket once, but answering "Yes" at
`confirm_additional_request` emails the very same ticket body a second time. -/
theorem C4_yes_dispatches_same_ticket_twice :
    captureStep.2.1 =
      [Directive.startChoices ISSUE_LOGGED_TEXT get_additional_request_choices
         "confirm_additional_request",
       Directive.sendEmail RECIPIENT_ADDRESS "Help desk ticket"
         (ticketToString captureStep.1.current_ticket)] ∧
    yesStep.2.1 =
      [Directive.sendEmail RECIPIENT_ADDRESS "Help desk ticket"
         (ticketToString captureStep.1.current_ticket)] ∧
    yesStep.1.current_ticket = captureStep.1.current_ticket := by
  decide

/-- C6 (code behavior at the failing input): answering "Yes" at
`confirm_additional_request` leaves the completed ticket draft unchanged (no fresh
`TicketDraft`), raises `TypeError` before any main-menu recognition starts, and
only re-emails the old ticket; "No" plays the goodbye prompt. -/
theorem C6_yes_crashes_and_never_resets_ticket :
    yesStep.1.current_ticket = captureStep.1.current_ticket ∧
    yesStep.1.current_ticket ≠ emptyTicket ∧
    yesStep.2.2 =
      Outcome.pyError "TypeError: missing required positional argument choices" ∧
    yesStep.2.1 =
      [Directive.sendEmail RECIPIENT_ADDRESS "Help desk ticket"
         (ticketToString captureStep.1.current_ticket)] ∧
    (process_event captureStep.1
      (CallbackEvent.RecognizeCompletedChoices "callA" "No" none
        "confirm_additional_request")).2.1 =
      [Directive.play GOODBYE (some "end_call_log_ticket")] := by
  decide

/-- C5 counterexample: the normalizer only lower-cases and strips spaces and
periods, so the spoken phrase of the claim normalizes to
"esixseventwoeightthreefour", not to "e672834". -/
theorem C5_spoken_words_not_converted :
    normalize_speech_eid "e six seven two eight three four" =
      "esixseventwoeightthreefour" ∧
    normalize_speech_eid "e six seven two eight three four" ≠ "e672834" := by
  decide

/-- C5 (amended): for the SpeechRecognized input "E 672834" in the
provide-employee-id context the normalizer yields "e672834", and when the directory
lookup finds that id the session binds the employee and the next recognition
request is `confirm_name` with a prompt that includes the employee's first name. -/
theorem C5_digit_text_reaches_confirm_name (gs : GlobalState) (emp : Employee)
    (h : get_employee_by_id gs.employee_dict "e672834" = some emp) :
    normalize_speech_eid "E 672834" = "e672834" ∧
    process_event gs
      (CallbackEvent.RecognizeCompletedSpeech "callA" "E 672834" "provide_eid") =
      ({gs with
          current_employee := some emp
          retry_object := ⟨some "confirm_name", some get_confirm_choices,
                           some "choices", some 0⟩},
       [Directive.startChoices
          ("Great. Give me a moment while I look up your information... Is your name "
            ++ emp.first_name ++ "?")
          get_confirm_choices "confirm_name"],
       Outcome.http200) := by
  have hn : normalize_speech_eid "E 672834" = "e672834" := by decide
  refine ⟨hn, ?_⟩
  have key : get_employee_by_id gs.employee_dict (normalize_speech_eid "E 672834") =
      some emp := by
    rw [hn]
    exact h
  show recognize_speech_branch
    {gs with retry_object := {gs.retry_object with counter := some 0}}
    "E 672834" "provide_eid" = _
  simp [recognize_speech_branch, get_media_recognize_choice_options, key]

/-- Witness for C5 at a concrete directory. -/
theorem C5_digit_text_reaches_confirm_name_witness :
    get_employee_by_id (initState [("e672834", empAlex)]).employee_dict "e672834" =
      some empAlex ∧
    (normalize_speech_eid "E 672834" = "e672834" ∧
     process_event (initState [("e672834", empAlex)])
       (CallbackEvent.RecognizeCompletedSpeech "callA" "E 672834" "provide_eid") =
       ({initState [("e672834", empAlex)] with
           current_employee := some empAlex
           retry_object := ⟨some "confirm_name", some get_confirm_choices,
                            some "choices", some 0⟩},
        [Directive.startChoices
           ("Great. Give me a moment while I look up your information... Is your name "
             ++ empAlex.first_name ++ "?")
           get_confirm_choices "confirm_name"],
        Outcome.http200)) :=
  ⟨by decide, C5_digit_text_reaches_confirm_name (initState [("e672834", empAlex)])
    empAlex (by decide)⟩

/-- C10: a DTMF employee-id capture is looked up as the digit concatenation prefixed
with the literal character "e", while a spoken id is looked up as the lower-cased,
space- and period-stripped text with no prefix, so the same six digits entered by
key and by voice query different keys. -/
theorem C10_asymmetric_lookup_keys :
    (∀ (tones : List String) (num_string : String),
        tonesToNumString tones = some num_string →
        dtmf_eid_key tones =
          some ("e" ++ pyRemoveChar (pyRemoveChar num_string ' ') '.')) ∧
    dtmf_eid_key ["six", "seven", "two", "eight", "three", "four"] = some "e672834" ∧
    normalize_speech_eid "672834" = "672834" ∧
    ("672834" : String) ≠ "e672834" := by
  refine ⟨?_, by decide, by decide, by decide⟩
  intro tones num_string h
  simp [dtmf_eid_key, h]

/-- Witness for C10 at a concrete tone list. -/
theorem C10_asymmetric_lookup_keys_witness :
    tonesToNumString ["six", "seven", "two", "eight", "three", "four"] =
      some "672834" ∧
    dtmf_eid_key ["six", "seven", "two", "eight", "three", "four"] =
      some ("e" ++ pyRemoveChar (pyRemoveChar "672834" ' ') '.') :=
  ⟨by decide, C10_asymmetric_lookup_keys.1
    ["six", "seven", "two", "eight", "three", "four"] "672834" (by decide)⟩

end FireBot
